import Mathlib

/-!
# Verification of the starplot DSO plotting pipeline

Shallow embedding of `src/starplot/plotters/dsos.py` (the `DsoPlotterMixin`
class: `_plot_dso_polygon`, the convenience wrappers and `dsos`) together
with the object-selection expression engine it relies on.

Conventions:
* Python floats carried by catalog rows (`ra_degrees`, `MajAx`, `V-Mag`, ...)
  are embedded as `ℚ`; nullable columns as `Option ℚ`.
* Python truthiness of a nullable number (`x or y`, `if min_ax:`) is embedded
  by `truthy`: `None` and `0` are falsy, everything else truthy.
* The drawing surface is opaque: a call to it is recorded as a `DrawCall`
  value, and one loop iteration of `dsos` produces a list of such calls.
-/

namespace Starplot

/-! ## Python truthiness for nullable numbers -/

/-- Python truthiness of a nullable float: `None` and `0.0` are falsy. -/
def truthy : Option ℚ → Bool
  | none => false
  | some q => q ≠ 0

/-- Embedding of the Python expression `v or b or None` as it appears in
`magnitude = d["V-Mag"] or d["B-Mag"] or None` (dsos.py line 156). -/
def pyOrChain (v b : Option ℚ) : Option ℚ :=
  if truthy v then v else if truthy b then b else none

/-- Embedding of `float(magnitude) if magnitude else None` (dsos.py line 157):
a falsy chain result (including `0`) becomes `None`. -/
def magGuard (m : Option ℚ) : Option ℚ :=
  if truthy m then m else none

/-- The full magnitude resolution of dsos.py lines 156-157. -/
def resolveMagnitude (v b : Option ℚ) : Option ℚ :=
  magGuard (pyOrChain v b)

/-! ## Expression engine

Modelled from the spec: the expression engine (`starplot/models/base.py`,
exercised by `src/tests/test_models.py`) is not under `src/`; this follows
spec section 4.1 and the design note of section 9: a tagged-variant tree
(Comparison | Nullity | Membership | And | Or) with `evaluate : object → bool`,
where a comparison or membership test on a null-valued attribute is false
(`is_not_in` on a null attribute is true: a null value is not a member), and
And/Or have standard boolean semantics with both sides always evaluated. -/

/-- An attribute value: numeric or string (spec 4.1: "Numeric and string
comparisons use native ordering"). -/
inductive Value
  | num (q : ℚ)
  | str (s : String)
  deriving DecidableEq

/-- An object, as seen by the expression engine: a map from attribute names
to values, `none` meaning the attribute is null on this instance. -/
def Obj : Type := String → Option Value

/-- Comparison operators of the engine. -/
inductive CmpOp
  | lt | le | gt | ge | eq | ne
  deriving DecidableEq

/-- Native ordering on values: numbers compare with numbers, strings with
strings; equality/inequality across kinds is plain disequality. -/
def evalCmp (op : CmpOp) (x lit : Value) : Bool :=
  match op, x, lit with
  | .lt, .num a, .num b => decide (a < b)
  | .le, .num a, .num b => decide (a ≤ b)
  | .gt, .num a, .num b => decide (a > b)
  | .ge, .num a, .num b => decide (a ≥ b)
  | .lt, .str a, .str b => decide (a < b)
  | .le, .str a, .str b => decide (a ≤ b)
  | .gt, .str a, .str b => decide (a > b)
  | .ge, .str a, .str b => decide (a ≥ b)
  | .eq, x, lit => decide (x = lit)
  | .ne, x, lit => !decide (x = lit)
  | _, _, _ => false

/-- Modelled from the spec: the Attribute Expression tree of spec
sections 3, 4.1 and 9 (the engine itself is not under `src/`). -/
inductive Expr
  | cmp (attr : String) (op : CmpOp) (lit : Value)
  | isNull (attr : String)
  | isNotNull (attr : String)
  | isIn (attr : String) (coll : List Value)
  | isNotIn (attr : String) (coll : List Value)
  | and (e1 e2 : Expr)
  | or (e1 e2 : Expr)
  deriving DecidableEq

/-- Modelled from the spec: `evaluate(obj)` of spec section 4.1. -/
def evaluate : Expr → Obj → Bool
  | .cmp a op lit, o =>
      match o a with
      | none => false
      | some x => evalCmp op x lit
  | .isNull a, o => (o a).isNone
  | .isNotNull a, o => (o a).isSome
  | .isIn a coll, o =>
      match o a with
      | none => false
      | some x => coll.contains x
  | .isNotIn a coll, o =>
      match o a with
      | none => true
      | some x => !coll.contains x
  | .and e1 e2, o => evaluate e1 o && evaluate e2 o
  | .or e1 e2, o => evaluate e1 o || evaluate e2 o

/-! ## DSO types and the DSO model -/

/-- DSO type enum (`starplot/data/dsos.py::DsoType`); the variants used by
the plotting code under `src/`. -/
inductive DsoType
  | OPEN_CLUSTER
  | GLOBULAR_CLUSTER
  | GALAXY
  | GALAXY_PAIR
  | GALAXY_TRIPLET
  | NEBULA
  | PLANETARY_NEBULA
  | EMISSION_NEBULA
  | STAR_CLUSTER_NEBULA
  | REFLECTION_NEBULA
  | DARK_NEBULA
  | ASSOCIATION_OF_STARS
  deriving DecidableEq

/-- The `DSO` model record constructed at dsos.py lines 158-168. -/
structure DSO where
  name : String
  ra : ℚ
  dec : ℚ
  type : DsoType
  majAx : Option ℚ
  minAx : Option ℚ
  angle : Option ℚ
  magnitude : Option ℚ
  size : Option ℚ
  deriving DecidableEq

/-- The attribute map of a `DSO`, connecting the model to the expression
engine (`DSO.magnitude`, `DSO.name`, ... accessors). -/
def DSO.attrs (d : DSO) : Obj := fun a =>
  if a = "name" then some (Value.str d.name)
  else if a = "ra" then some (Value.num d.ra)
  else if a = "dec" then some (Value.num d.dec)
  else if a = "magnitude" then d.magnitude.map Value.num
  else if a = "maj_ax" then d.majAx.map Value.num
  else if a = "min_ax" then d.minAx.map Value.num
  else if a = "angle" then d.angle.map Value.num
  else if a = "size" then d.size.map Value.num
  else none

/-- The default selection predicate built at dsos.py line 127:
`DSO.magnitude.is_null() | (DSO.magnitude <= mag)`. -/
def defaultWhere (mag : ℚ) : Expr :=
  Expr.or (Expr.isNull "magnitude") (Expr.cmp "magnitude" CmpOp.le (Value.num mag))

/-! ## Catalog rows and styles -/

/-- Outline geometry of a catalog row (`d.geometry`): shapely geometry whose
`geom_type` is `"Point"`, `"Polygon"` or `"MultiPolygon"`; a polygon is its
exterior ring, a list of coordinate pairs. -/
inductive Geom
  | point
  | polygon (exterior : List (ℚ × ℚ))
  | multiPolygon (polys : List (List (ℚ × ℚ)))
  deriving DecidableEq

/-- A catalog row as read from OpenNGC (dsos.py lines 116-156), after the
pre-loop filter of lines 141-145: its type is one of the requested `DsoType`s
(`ONGC_TYPE_MAP[d.Type]`, a data-module table abstracted as the already-mapped
type), and `ra_degrees` / `dec_degrees` are non-null. -/
structure Row where
  Name : String
  dsoType : DsoType
  ra_degrees : ℚ
  dec_degrees : ℚ
  MajAx : Option ℚ
  MinAx : Option ℚ
  PosAng : Option ℚ
  VMag : Option ℚ
  BMag : Option ℚ
  size_deg2 : Option ℚ
  geometry : Geom
  deriving DecidableEq

/-- The `DSO` record built at dsos.py lines 158-168 (`ra=ra/15`,
`magnitude = d["V-Mag"] or d["B-Mag"] or None` guarded by
`float(magnitude) if magnitude else None`). -/
def buildDso (d : Row) : DSO :=
  { name := d.Name
    ra := d.ra_degrees / 15
    dec := d.dec_degrees
    type := d.dsoType
    majAx := d.MajAx
    minAx := d.MinAx
    angle := d.PosAng
    magnitude := resolveMagnitude d.VMag d.BMag
    size := d.size_deg2 }

/-- Marker symbol (`starplot/styles`): the plotting code only distinguishes
`MarkerSymbolEnum.SQUARE` from everything else. -/
inductive MarkerSymbol
  | square
  | circle
  | ellipseSym
  | crossSym
  deriving DecidableEq

/-- The marker part of an object style: the fields read or written by
dsos.py (`style.marker.symbol`, `style.marker.alpha`). -/
structure MarkerStyle where
  symbol : MarkerSymbol
  alpha : ℚ
  deriving DecidableEq

/-- An object style as returned by the style registry (its `marker` part is
all the DSO plotting code touches; `to_polygon_style()` derives fill and
alpha from it, recorded here by carrying the marker's alpha on shape calls). -/
structure ObjectStyle where
  marker : MarkerStyle
  deriving DecidableEq

/-! ## Draw calls -/

/-- A call issued to the opaque drawing surface. -/
inductive DrawCall
  | polygon (coords : List (ℚ × ℚ)) (alpha : ℚ) (closed : Bool)
  | rectangle (center : ℚ × ℚ) (width height : ℚ) (alpha : ℚ) (angle : ℚ)
  | ellipse (center : ℚ × ℚ) (width height : ℚ) (alpha : ℚ) (angle : ℚ)
  | text (ra dec : ℚ) (label : String)
  | marker (ra dec : ℚ) (label : Option String) (style : ObjectStyle)
  deriving DecidableEq

/-- The coordinate list built by `_plot_dso_polygon` (dsos.py lines 21-26):
the exterior ring's coordinates with the first coordinate appended twice
("close the polygon - for some reason matplotlib needs the coord twice").
An empty exterior would raise `IndexError` at `coords[0]` in the source;
shapely exterior rings are never empty, so the embedding handles the
nonempty shape and returns `[]` on the unreachable empty input. -/
def plotDsoPolygonCoords : List (ℚ × ℚ) → List (ℚ × ℚ)
  | [] => []
  | c :: rest => (c :: rest) ++ [c, c]

/-- The draw call issued by `_plot_dso_polygon`:
`self._polygon(coords, style.marker.to_polygon_style(), closed=False)`. -/
def plotDsoPolygon (exterior : List (ℚ × ℚ)) (style : ObjectStyle) : DrawCall :=
  DrawCall.polygon (plotDsoPolygonCoords exterior) style.marker.alpha false

/-- Python truthiness of a label (`if label:`): `None` and `""` are falsy. -/
def truthyLabel : Option String → Bool
  | none => false
  | some s => s ≠ ""

/-- The per-object rendering dispatch of dsos.py lines 185-235, after style
resolution, alpha override and label suppression: returns the draw calls
issued for this row, in order. -/
def renderDso (trueSize : Bool) (d : Row) (style : ObjectStyle)
    (label : Option String) : List DrawCall :=
  if trueSize && d.size_deg2.isSome then
    let shapeDraws : List DrawCall :=
      match d.geometry with
      | .polygon ext => [plotDsoPolygon ext style]
      | .multiPolygon polys => polys.map (fun ext => plotDsoPolygon ext style)
      | .point =>
          if truthy d.MajAx then
            let majAxDegrees := (d.MajAx.getD 0 / 60) / 2
            let minAxDegrees :=
              if truthy d.MinAx then (d.MinAx.getD 0 / 60) / 2 else majAxDegrees
            let ang := d.PosAng.getD 0
            if style.marker.symbol = MarkerSymbol.square then
              [DrawCall.rectangle (d.ra_degrees / 15, d.dec_degrees)
                (minAxDegrees * 2) (majAxDegrees * 2) style.marker.alpha ang]
            else
              [DrawCall.ellipse (d.ra_degrees / 15, d.dec_degrees)
                (minAxDegrees * 2) (majAxDegrees * 2) style.marker.alpha ang]
          else []
    let labelDraws : List DrawCall :=
      if truthyLabel label then
        [DrawCall.text (d.ra_degrees / 15) d.dec_degrees (label.getD "")]
      else []
    shapeDraws ++ labelDraws
  else
    [DrawCall.marker (d.ra_degrees / 15) d.dec_degrees label style]

/-! ## Labels, legend and the plotting loop -/

/-- The `labels` argument after normalisation (dsos.py lines 129-132):
`None` becomes the empty mapping (all lookups miss), anything else becomes a
`DsoLabelMaker`. Modelled from the spec: `DsoLabelMaker`
(`starplot/data/dsos.py`) is not under `src/`; per spec section 3 and 4.3,
`labels.get(name)` is the explicit per-name override when one exists, else
the catalog name, and the "no labels" signal suppresses every label. -/
inductive LabelsArg
  | defaults
  | noLabels
  | overrides (m : List (String × String))
  deriving DecidableEq

/-- `labels.get(name)` for each normalised form of the argument. -/
def labelLookup : LabelsArg → String → Option String
  | .noLabels, _ => none
  | .defaults, name => some name
  | .overrides m, name =>
      match m.lookup name with
      | some v => some v
      | none => some name

/-- Modelled from the spec: `_add_legend_handle_marker` is not under `src/`;
per spec section 4.2 a legend handle keyed by the legend label is registered,
"skipped if legend label resolves to none". -/
def addLegendHandle (legend : List (String × MarkerStyle))
    (lbl : Option String) (m : MarkerStyle) : List (String × MarkerStyle) :=
  match lbl with
  | none => legend
  | some l => legend ++ [(l, m)]

/-- The arguments of one `dsos(...)` call that the per-row loop reads
(after the pre-loop normalisation of lines 123-145). `whereList = []` means
the caller passed `where=None` or `where=[]`: `where = where or []` maps both
to the empty list. -/
structure DsosArgs where
  mag : ℚ
  types : List DsoType
  trueSize : Bool
  labels : LabelsArg
  legendLabels : DsoType → Option String
  alphaFn : Option (DSO → ℚ)
  whereList : List Expr
  whereLabels : List Expr

/-- The effective `where` list after dsos.py lines 123-127: the default
magnitude predicate is installed exactly when the caller-supplied list is
empty or absent. -/
def effectiveWhere (whereList : List Expr) (mag : ℚ) : List Expr :=
  if whereList.isEmpty then [defaultWhere mag] else whereList

/-- The plot-level state mutated by the loop: the style registry backing
`self.style.get_dso_style` (modelled from the spec, section 6:
`get_style_for_type(DsoType) -> Style | None`; the Python registry hands out
the stored style object itself, so an attribute assignment on the returned
style writes through to the registry), the `self._objects.dsos` accumulator,
the registered legend handles and the draw calls issued so far. -/
structure PlotState where
  styles : DsoType → Option ObjectStyle
  dsos : List DSO
  legend : List (String × MarkerStyle)
  draws : List DrawCall

/-- One iteration of the `for _, d in nearby_dsos.iterrows()` loop
(dsos.py lines 147-239), given the in-bounds test of the current plot as an
opaque predicate `inB`. A skipped row (`continue`) leaves the state
unchanged; the embedding is a total function: no path of the loop body
raises. -/
def dsoStep (a : DsosArgs) (inB : ℚ → ℚ → Bool) (st : PlotState) (d : Row) :
    PlotState :=
  let label0 := labelLookup a.labels d.Name
  let legendLabel := a.legendLabels d.dsoType
  let dso := buildDso d
  match st.styles d.dsoType with
  | none => st
  | some style0 =>
      if !((effectiveWhere a.whereList a.mag).all (fun e => evaluate e dso.attrs))
          || !(inB (d.ra_degrees / 15) d.dec_degrees) then
        st
      else
        let newAlpha :=
          match a.alphaFn with
          | some f => f dso
          | none => style0.marker.alpha
        let style := { style0 with marker := { style0.marker with alpha := newAlpha } }
        let label :=
          if !a.whereLabels.isEmpty
              && !(a.whereLabels.all (fun e => evaluate e dso.attrs)) then
            none
          else label0
        { styles := fun t => if t = d.dsoType then some style else st.styles t
          dsos := st.dsos ++ [dso]
          legend := addLegendHandle st.legend legendLabel style.marker
          draws := st.draws ++ renderDso a.trueSize d style label }

/-- The whole `dsos` loop: the pre-loop type/position filter of lines
141-145 followed by the fold of `dsoStep` over the surviving rows in catalog
order. -/
def dsosRun (a : DsosArgs) (inB : ℚ → ℚ → Bool) (st : PlotState)
    (rows : List Row) : PlotState :=
  (rows.filter (fun r => a.types.contains r.dsoType)).foldl (dsoStep a inB) st

/-! ## The `dsos` call signature and its convenience wrappers -/

/-- `DEFAULT_DSO_TYPES` (`starplot/data/dsos.py`, a data module not under
`src/`): the default value of the `types` parameter. Its exact contents are
immaterial to the claims (the wrappers always override it). -/
def DEFAULT_DSO_TYPES : List DsoType :=
  [DsoType.OPEN_CLUSTER, DsoType.GLOBULAR_CLUSTER,
   DsoType.GALAXY, DsoType.GALAXY_PAIR, DsoType.GALAXY_TRIPLET,
   DsoType.NEBULA, DsoType.PLANETARY_NEBULA, DsoType.EMISSION_NEBULA,
   DsoType.STAR_CLUSTER_NEBULA, DsoType.REFLECTION_NEBULA]

/-- Keyword arguments a caller may supply to `dsos()` or to a wrapper
(`types` excluded: the wrappers always pass it themselves, and supplying it
to a wrapper would be a duplicate-keyword `TypeError`). A `none` field means
the keyword was not supplied. -/
structure DsosKwargs where
  mag : Option ℚ := none
  trueSize : Option Bool := none
  labels : Option LabelsArg := none
  legendLabels : Option (DsoType → Option String) := none
  alphaFn : Option (Option (DSO → ℚ)) := none
  whereArg : Option (List Expr) := none
  whereLabelsArg : Option (List Expr) := none

/-- The parameter values bound by one `dsos()` call: each parameter of the
Python signature (dsos.py lines 86-96) with its default filled in when the
caller supplied nothing. -/
structure DsosBound where
  mag : ℚ
  types : List DsoType
  trueSize : Bool
  labels : LabelsArg
  legendLabels : Option (DsoType → Option String)
  alphaFn : Option (DSO → ℚ)
  whereArg : Option (List Expr)
  whereLabelsArg : Option (List Expr)

/-- Binding of a `dsos(...)` call: at most one positional argument (which
binds `mag`, the first parameter after `self`), keyword arguments, and the
`types` keyword when given. Defaults: `mag=8.0`, `types=DEFAULT_DSO_TYPES`,
`true_size=True`, `labels=DSO_LABELS_DEFAULT` (the default label maker),
`legend_labels=DSO_LEGEND_LABELS`, `alpha_fn=None`, `where=None`,
`where_labels=None`. -/
def bindDsos (posMag : Option ℚ) (kw : DsosKwargs)
    (typesArg : Option (List DsoType)) : DsosBound :=
  { mag := (match posMag with | some m => some m | none => kw.mag).getD 8
    types := typesArg.getD DEFAULT_DSO_TYPES
    trueSize := kw.trueSize.getD true
    labels := kw.labels.getD LabelsArg.defaults
    legendLabels := kw.legendLabels
    alphaFn := (kw.alphaFn.getD none)
    whereArg := kw.whereArg
    whereLabelsArg := kw.whereLabelsArg }

/-- `open_clusters(self, *args, **kwargs)` (dsos.py lines 28-34): calls
`self.dsos(types=[DsoType.OPEN_CLUSTER], **kwargs)` — the positional `args`
are accepted but do not appear in the inner call. -/
def open_clusters (posArgs : List ℚ) (kw : DsosKwargs) : DsosBound :=
  bindDsos none kw (some [DsoType.OPEN_CLUSTER])

/-- `globular_clusters(self, *args, **kwargs)` (dsos.py lines 36-42). -/
def globular_clusters (posArgs : List ℚ) (kw : DsosKwargs) : DsosBound :=
  bindDsos none kw (some [DsoType.GLOBULAR_CLUSTER])

/-- `galaxies(self, *args, **kwargs)` (dsos.py lines 44-61). -/
def galaxies (posArgs : List ℚ) (kw : DsosKwargs) : DsosBound :=
  bindDsos none kw
    (some [DsoType.GALAXY, DsoType.GALAXY_PAIR, DsoType.GALAXY_TRIPLET])

/-- `nebula(self, *args, **kwargs)` (dsos.py lines 63-84). -/
def nebula (posArgs : List ℚ) (kw : DsosKwargs) : DsosBound :=
  bindDsos none kw
    (some [DsoType.NEBULA, DsoType.PLANETARY_NEBULA, DsoType.EMISSION_NEBULA,
           DsoType.STAR_CLUSTER_NEBULA, DsoType.REFLECTION_NEBULA])

/-! ## Theorems -/

/-- C7: for every object and expressions E1, E2, `evaluate(E1 & E2, O)`
equals `evaluate(E1, O) AND evaluate(E2, O)`, `evaluate(E1 | E2, O)` equals
`evaluate(E1, O) OR evaluate(E2, O)`, and for every attribute,
`evaluate(is_null(attr), O)` is the negation of
`evaluate(is_not_null(attr), O)`. -/
theorem expression_engine_laws :
    (∀ (e1 e2 : Expr) (o : Obj),
      evaluate (Expr.and e1 e2) o = (evaluate e1 o && evaluate e2 o)) ∧
    (∀ (e1 e2 : Expr) (o : Obj),
      evaluate (Expr.or e1 e2) o = (evaluate e1 o || evaluate e2 o)) ∧
    (∀ (a : String) (o : Obj),
      evaluate (Expr.isNull a) o = !evaluate (Expr.isNotNull a) o) := by
  refine ⟨fun e1 e2 o => rfl, fun e1 e2 o => rfl, fun a o => ?_⟩
  cases h : o a <;> simp [evaluate, h]

/-- C9: the coordinate list `_plot_dso_polygon` hands to the drawing
surface's polygon primitive is explicitly closed: it is the exterior ring
with its first vertex appended (twice), so the final element of the list
equals the first vertex. -/
theorem polygon_explicitly_closed (c : ℚ × ℚ) (rest : List (ℚ × ℚ))
    (style : ObjectStyle) :
    plotDsoPolygon (c :: rest) style
      = DrawCall.polygon ((c :: rest) ++ [c, c]) style.marker.alpha false ∧
    ((c :: rest) ++ [c, c]).head? = some c ∧
    ((c :: rest) ++ [c, c]).getLast? = some c := by
  refine ⟨rfl, rfl, ?_⟩
  have h : (c :: rest) ++ [c, c] = ((c :: rest) ++ [c]) ++ [c] := by
    simp
  rw [h, List.getLast?_concat]

/-- C10: a row whose `V-Mag` is `0` resolves its magnitude from `B-Mag`
(the Python falsy `or`-chain); a chain result of `0` is turned into `None`
by the `float(magnitude) if magnitude else None` guard; and a DSO whose
magnitude is `None` satisfies the default selection predicate for every
magnitude limit. -/
theorem vmag_zero_falsy_fallback :
    (∀ b : Option ℚ, resolveMagnitude (some 0) b = resolveMagnitude none b) ∧
    magGuard (some 0) = none ∧
    (∀ (mag : ℚ) (d : DSO), d.magnitude = none →
      evaluate (defaultWhere mag) d.attrs = true) := by
  refine ⟨fun b => ?_, rfl, fun mag d h => ?_⟩
  · simp [resolveMagnitude, pyOrChain, truthy]
  · simp [evaluate, defaultWhere, DSO.attrs, h]

/-- Witness for C10's hypothesis-bearing conjunct: a concrete DSO with null
magnitude is included under the default predicate at limit `-100`. -/
theorem vmag_zero_falsy_fallback_witness :
    (DSO.mk "x" 1 1 DsoType.GALAXY none none none none none).magnitude = none ∧
    evaluate (defaultWhere (-100))
      (DSO.mk "x" 1 1 DsoType.GALAXY none none none none none).attrs = true :=
  ⟨rfl, vmag_zero_falsy_fallback.2.2 (-100)
    (DSO.mk "x" 1 1 DsoType.GALAXY none none none none none) rfl⟩

/-- C8: when the style registry has no style for a row's DSO type, the loop
iteration skips the row silently: the state is returned unchanged (nothing
drawn, nothing appended to the objects-plotted accumulator, no legend handle
registered), and the embedding of the loop body is a total function, so no
exception is raised on this path. -/
theorem missing_style_skips_silently (a : DsosArgs) (inB : ℚ → ℚ → Bool)
    (st : PlotState) (d : Row) (h : st.styles d.dsoType = none) :
    dsoStep a inB st d = st := by
  simp [dsoStep, h]

/-- Witness for C8: a concrete row of a type with no configured style leaves
a concrete state unchanged. -/
theorem missing_style_skips_silently_witness :
    (PlotState.mk (fun _ => none) [] [] []).styles DsoType.GALAXY = none ∧
    dsoStep ⟨8, [DsoType.GALAXY], true, LabelsArg.defaults, fun _ => none,
        none, [], []⟩ (fun _ _ => true)
      (PlotState.mk (fun _ => none) [] [] [])
      (Row.mk "G1" DsoType.GALAXY 30 1 none none none none none none Geom.point)
      = PlotState.mk (fun _ => none) [] [] [] :=
  ⟨rfl, missing_style_skips_silently _ _ _ _ rfl⟩

/-- A caller-supplied non-empty `where` list survives the normalisation of
dsos.py lines 123-127 unchanged: the default magnitude predicate is not
installed. -/
theorem effectiveWhere_of_ne_nil (w : List Expr) (h : w ≠ []) (m : ℚ) :
    effectiveWhere w m = w := by
  have hw : w.isEmpty = false := by
    cases w
    · exact absurd rfl h
    · rfl
  simp [effectiveWhere, hw]

/-- C1: when `where` is supplied as a non-empty list, the `mag` argument has
no effect on the whole plotting run — for any two magnitude limits, the
final state (objects plotted, draw calls, legend, styles) is identical. -/
theorem dsos_where_overrides_mag (w : List Expr) (h : w ≠ [])
    (m1 m2 : ℚ) (ty : List DsoType) (ts : Bool) (lab : LabelsArg)
    (ll : DsoType → Option String) (af : Option (DSO → ℚ)) (wl : List Expr)
    (inB : ℚ → ℚ → Bool) (st : PlotState) (rows : List Row) :
    dsosRun ⟨m1, ty, ts, lab, ll, af, w, wl⟩ inB st rows
      = dsosRun ⟨m2, ty, ts, lab, ll, af, w, wl⟩ inB st rows := by
  have hstep : dsoStep ⟨m1, ty, ts, lab, ll, af, w, wl⟩ inB
      = dsoStep ⟨m2, ty, ts, lab, ll, af, w, wl⟩ inB := by
    funext s d
    simp only [dsoStep, effectiveWhere_of_ne_nil w h]
  simp only [dsosRun, hstep]

/-- Witness for C1: with the concrete non-empty `where` list
`[DSO.magnitude.is_null()]`, a run over one galaxy row gives the same state
for limits `3` and `8`. -/
theorem dsos_where_overrides_mag_witness :
    ([Expr.isNull "magnitude"] : List Expr) ≠ [] ∧
    dsosRun ⟨3, [DsoType.GALAXY], true, LabelsArg.defaults, fun _ => none,
        none, [Expr.isNull "magnitude"], []⟩ (fun _ _ => true)
      (PlotState.mk (fun _ => some (ObjectStyle.mk (MarkerStyle.mk MarkerSymbol.circle 1))) [] [] [])
      [Row.mk "G1" DsoType.GALAXY 30 1 none none none none none none Geom.point]
      = dsosRun ⟨8, [DsoType.GALAXY], true, LabelsArg.defaults, fun _ => none,
          none, [Expr.isNull "magnitude"], []⟩ (fun _ _ => true)
        (PlotState.mk (fun _ => some (ObjectStyle.mk (MarkerStyle.mk MarkerSymbol.circle 1))) [] [] [])
        [Row.mk "G1" DsoType.GALAXY 30 1 none none none none none none Geom.point] :=
  ⟨by simp, dsos_where_overrides_mag _ (by simp) 3 8 _ _ _ _ _ _ _ _ _⟩

/-- The inclusion rule of the default predicate, phrased on an
already-resolved magnitude (spec section 4.3: included iff the magnitude is
unknown or ≤ the limit). -/
def magIncluded (m : Option ℚ) (mag : ℚ) : Bool :=
  match m with
  | none => true
  | some q => decide (q ≤ mag)

/-- The magnitude-resolution rule exactly as claim C5 words it: the record's
V-Mag value, falling back to B-Mag only when V-Mag is absent. (Stated from
the claim's words, for comparison with `resolveMagnitude` from the source.) -/
def claimResolveMagnitude (v b : Option ℚ) : Option ℚ :=
  match v with
  | some x => some x
  | none => b

/-- C5 counterexample: for a record with V-Mag = 0 and B-Mag = 9.1 at limit
8, the claim's resolution rule yields magnitude 0 and predicts inclusion
(0 ≤ 8), but the code's falsy `or`-chain resolves 9.1 and the default
predicate excludes the record. -/
theorem default_predicate_vmag_zero_divergence :
    magIncluded (claimResolveMagnitude (some 0) (some (91/10))) 8 = true ∧
    evaluate (defaultWhere 8)
      (buildDso (Row.mk "N1" DsoType.GALAXY 30 1 none none none (some 0)
        (some (91/10)) none Geom.point)).attrs = false := by
  constructor
  · simp [claimResolveMagnitude, magIncluded]
  · simp [evaluate, defaultWhere, DSO.attrs, buildDso, resolveMagnitude,
      pyOrChain, magGuard, truthy, evalCmp]
    norm_num

/-- C5 (amended): with `where` absent the installed predicate is the default
one, and it holds exactly when the resolved magnitude is null or ≤ the
limit, where resolution is the Python falsy chain `V-Mag or B-Mag or None`
(B-Mag is used when V-Mag is absent *or zero*, and a falsy chain result
resolves to null). In particular a record with V-Mag=None, B-Mag=9.1 is
excluded at limit 8. -/
theorem default_predicate_resolved_magnitude :
    (∀ mag : ℚ, effectiveWhere [] mag = [defaultWhere mag]) ∧
    (∀ (r : Row) (mag : ℚ),
      evaluate (defaultWhere mag) (buildDso r).attrs
        = magIncluded (resolveMagnitude r.VMag r.BMag) mag) ∧
    evaluate (defaultWhere 8)
      (buildDso (Row.mk "N1" DsoType.GALAXY 30 1 none none none none
        (some (91/10)) none Geom.point)).attrs = false := by
  refine ⟨fun mag => rfl, fun r mag => ?_, ?_⟩
  · cases h : resolveMagnitude r.VMag r.BMag <;>
      simp [evaluate, defaultWhere, DSO.attrs, buildDso, magIncluded, h, evalCmp]
  · simp [evaluate, defaultWhere, DSO.attrs, buildDso, resolveMagnitude,
      pyOrChain, magGuard, truthy, evalCmp]
    norm_num

/-- C2 (code behavior at the failing input): with true-size rendering on, a
record with non-null size metadata, a plain Point outline geometry and no
major axis gets *no* marker call at all — the only draw call issued is the
separate text label (`self._text`), contradicting both the claim's
point-marker fall-through and the source's own comment "if no major axis,
then just plot as a marker". -/
theorem no_axis_no_outline_draws_only_text :
    renderDso true
      (Row.mk "M42" DsoType.NEBULA 30 1 none none none none none (some 1)
        Geom.point)
      (ObjectStyle.mk (MarkerStyle.mk MarkerSymbol.circle 1)) (some "M42")
      = [DrawCall.text 2 1 "M42"] := by
  simp [renderDso, truthy, truthyLabel]
  norm_num

/-- The half-minor-axis the code computes on the major-axis path: the minor
axis formula is used only when `MinAx` is truthy (present and nonzero),
else the half-major axis (dsos.py lines 196-199). -/
def halfMinor (M : ℚ) (minAx : Option ℚ) : ℚ :=
  if truthy minAx then minAx.getD 0 / 60 / 2 else M / 60 / 2

/-- The half-minor-axis rule exactly as claim C6 words it: the formula
applied to the minor axis whenever it is present. (Stated from the claim's
words, for comparison with the source's rule.) -/
def claimHalfMinor (M : ℚ) (minAx : Option ℚ) : ℚ :=
  match minAx with
  | some m => m / 60 / 2
  | none => M / 60 / 2

/-- C6 counterexample: a record with MajAx=10 and MinAx=0 (present). The
claim's rule gives half-minor = (0/60)/2 = 0, but the code treats the falsy
minor axis as absent and renders the rectangle with both axes equal to the
major axis extent 1/6 = ((10/60)/2)·2. -/
theorem major_axis_minax_zero_divergence :
    renderDso true
      (Row.mk "X" DsoType.GALAXY 30 1 (some 10) (some 0) none none none
        (some 1) Geom.point)
      (ObjectStyle.mk (MarkerStyle.mk MarkerSymbol.square 1)) none
      = [DrawCall.rectangle (2, 1) (1/6) (1/6) 1 0] ∧
    claimHalfMinor 10 (some 0) * 2 ≠ (1/6 : ℚ) := by
  constructor
  · simp [renderDso, truthy, truthyLabel]
    norm_num
  · simp [claimHalfMinor]

/-- C6 (amended): on the major-axis path (true size, non-null size, Point
outline, truthy major axis `M`), the half-major axis is `(M/60)/2`; the
half-minor axis is the same formula on the minor axis when it is present
*and nonzero*, else equals the half-major axis; the shape is a rectangle
when the marker glyph is the square symbol and an ellipse otherwise, rotated
by the position angle with 0 when absent; the draw call carries twice each
half-axis as width/height. The claim's scenario (MajAx=10, MinAx=None,
PosAng=None, square glyph) renders a rectangle with half-minor = half-major
= 1/12 degrees and angle 0. -/
theorem major_axis_shape_formulas (name : String) (ty : DsoType)
    (ra dec M s : ℚ) (hM : M ≠ 0) (minAx posAng vmag bmag : Option ℚ)
    (st : ObjectStyle) :
    renderDso true
      (Row.mk name ty ra dec (some M) minAx posAng vmag bmag (some s)
        Geom.point) st none
      = (if st.marker.symbol = MarkerSymbol.square then
          [DrawCall.rectangle (ra / 15, dec) (halfMinor M minAx * 2)
            (M / 60 / 2 * 2) st.marker.alpha (posAng.getD 0)]
        else
          [DrawCall.ellipse (ra / 15, dec) (halfMinor M minAx * 2)
            (M / 60 / 2 * 2) st.marker.alpha (posAng.getD 0)]) ∧
    renderDso true
      (Row.mk "X" DsoType.OPEN_CLUSTER 30 1 (some 10) none none none none
        (some 1) Geom.point)
      (ObjectStyle.mk (MarkerStyle.mk MarkerSymbol.square 1)) none
      = [DrawCall.rectangle (2, 1) ((1/12) * 2) ((1/12) * 2) 1 0] := by
  constructor
  · simp [renderDso, truthy, truthyLabel, halfMinor, hM]
  · simp [renderDso, truthy, truthyLabel]
    norm_num

/-- Witness for C6: the amended theorem applied at the claim's own scenario
input (major axis 10, which is nonzero). -/
theorem major_axis_shape_formulas_witness :
    ((10 : ℚ) ≠ 0) ∧
    renderDso true
      (Row.mk "X" DsoType.OPEN_CLUSTER 30 1 (some 10) none none none none
        (some 1) Geom.point)
      (ObjectStyle.mk (MarkerStyle.mk MarkerSymbol.square 1)) none
      = [DrawCall.rectangle (2, 1) ((1/12) * 2) ((1/12) * 2) 1 0] :=
  ⟨by norm_num,
    (major_axis_shape_formulas "X" DsoType.OPEN_CLUSTER 30 1 10 1
      (by norm_num) none none none none
      (ObjectStyle.mk (MarkerStyle.mk MarkerSymbol.square 1))).2⟩

/-- C3 (code behavior at the failing input): the alpha override
`style.marker.alpha = _alpha_fn(_dso)` is an in-place attribute assignment
on the style object the registry handed out, so it writes through to the
shared registry entry. After plotting one galaxy with
`alpha_fn = lambda d: 0.5` against a galaxy style configured with alpha 1,
the registry's galaxy style holds alpha 1/2 — and a subsequent `dsos()`
call without `alpha_fn` (whose default is the style's configured alpha)
draws its galaxy marker with the leaked alpha 1/2, not the original 1. -/
theorem alpha_fn_mutates_shared_style :
    (dsoStep
        (DsosArgs.mk 8 [DsoType.GALAXY] false LabelsArg.noLabels
          (fun _ => none) (some (fun _ => (1:ℚ)/2)) [] [])
        (fun _ _ => true)
        (PlotState.mk
          (fun t => if t = DsoType.GALAXY then
            some (ObjectStyle.mk (MarkerStyle.mk MarkerSymbol.circle 1))
          else none) [] [] [])
        (Row.mk "G1" DsoType.GALAXY 30 1 none none none none none none
          Geom.point)).styles DsoType.GALAXY
      = some (ObjectStyle.mk (MarkerStyle.mk MarkerSymbol.circle (1/2))) ∧
    (dsoStep
        (DsosArgs.mk 8 [DsoType.GALAXY] false LabelsArg.noLabels
          (fun _ => none) none [] [])
        (fun _ _ => true)
        (dsoStep
          (DsosArgs.mk 8 [DsoType.GALAXY] false LabelsArg.noLabels
            (fun _ => none) (some (fun _ => (1:ℚ)/2)) [] [])
          (fun _ _ => true)
          (PlotState.mk
            (fun t => if t = DsoType.GALAXY then
              some (ObjectStyle.mk (MarkerStyle.mk MarkerSymbol.circle 1))
            else none) [] [] [])
          (Row.mk "G1" DsoType.GALAXY 30 1 none none none none none none
            Geom.point))
        (Row.mk "G2" DsoType.GALAXY 45 2 none none none none none none
          Geom.point)).draws
      = [DrawCall.marker 2 1 none
          (ObjectStyle.mk (MarkerStyle.mk MarkerSymbol.circle (1/2))),
         DrawCall.marker 3 2 none
          (ObjectStyle.mk (MarkerStyle.mk MarkerSymbol.circle (1/2)))] ∧
    ((1:ℚ)/2) ≠ 1 := by
  refine ⟨?_, ?_, by norm_num⟩ <;>
    simp [dsoStep, effectiveWhere, defaultWhere, evaluate, DSO.attrs,
      buildDso, resolveMagnitude, pyOrChain, magGuard, truthy,
      labelLookup, addLegendHandle, renderDso, truthyLabel] <;>
    norm_num

/-- C4 counterexample: `open_clusters(3)` (one positional argument, which
`dsos` would bind to `mag`) runs with the default `mag = 8`, while the
claim's forwarding — `dsos` called with the same positional argument and
`types` preset — would bind `mag = 3`. -/
theorem wrapper_drops_positional_mag :
    (open_clusters [3] {}).mag = 8 ∧
    (bindDsos (some 3) {} (some [DsoType.OPEN_CLUSTER])).mag = 3 :=
  ⟨rfl, rfl⟩

/-- C4 (amended): each convenience wrapper is equivalent to calling `dsos()`
with `types` preset to the wrapper's DSO types and every supplied *keyword*
argument forwarded unchanged; positional arguments are accepted by the
wrapper's `*args` but silently dropped, not forwarded. -/
theorem wrappers_forward_kwargs (posArgs : List ℚ) (kw : DsosKwargs) :
    open_clusters posArgs kw = bindDsos none kw (some [DsoType.OPEN_CLUSTER]) ∧
    globular_clusters posArgs kw
      = bindDsos none kw (some [DsoType.GLOBULAR_CLUSTER]) ∧
    galaxies posArgs kw
      = bindDsos none kw
          (some [DsoType.GALAXY, DsoType.GALAXY_PAIR, DsoType.GALAXY_TRIPLET]) ∧
    nebula posArgs kw
      = bindDsos none kw
          (some [DsoType.NEBULA, DsoType.PLANETARY_NEBULA,
                 DsoType.EMISSION_NEBULA, DsoType.STAR_CLUSTER_NEBULA,
                 DsoType.REFLECTION_NEBULA]) :=
  ⟨rfl, rfl, rfl, rfl⟩

end Starplot
